import Mathlib

/-!
Verification of the Formspree webhook handler
(src/netlify/functions/webhook.js) against its specification.

The JavaScript source is shallowly embedded: JSON values parsed by the
runtime become the inductive type JVal; JavaScript truthiness, property
access, string coercion and key enumeration are modelled explicitly;
external collaborators (the Twilio client call, the Slack fetch, the
mapping-table file read, the clock) are parameters of the handler, so
that theorems quantify over their behaviour.  Convention used throughout
(documented once here): a field or header is treated as "absent" exactly
when it is JavaScript-falsy (missing, null, empty string, 0, false),
because every presence test in the source is a truthiness test.
-/

/-- A JSON value as produced by the JavaScript runtime from JSON.parse.
Numbers are modelled as integers (all numeric literals relevant to this
program are integral; floating point is out of scope). -/
inductive JVal where
  | jnull : JVal
  | jbool : Bool → JVal
  | jnum : Int → JVal
  | jstr : String → JVal
  | jarr : List JVal → JVal
  | jobj : List (String × JVal) → JVal

/-- JavaScript truthiness of a value. -/
def jsTruthy : JVal → Bool
  | .jnull => false
  | .jbool b => b
  | .jnum n => !(n == 0)
  | .jstr s => !(s == "")
  | .jarr _ => true
  | .jobj _ => true

/-- Truthiness of a possibly-undefined value (undefined is falsy). -/
def jsTruthyO : Option JVal → Bool
  | none => false
  | some v => jsTruthy v

mutual

/-- JavaScript String(v) coercion. -/
def jsToString : JVal → String
  | .jnull => "null"
  | .jbool true => "true"
  | .jbool false => "false"
  | .jnum n => toString n
  | .jstr s => s
  | .jobj _ => "[object Object]"
  | .jarr xs => String.intercalate "," (jsArrElems xs)

/-- Array elements under String coercion: null renders as the empty
string inside an array join. -/
def jsArrElems : List JVal → List String
  | [] => []
  | .jnull :: rest => "" :: jsArrElems rest
  | v :: rest => jsToString v :: jsArrElems rest

end

/-- String coercion of a possibly-undefined value. -/
def jsToStringO : Option JVal → String
  | none => "undefined"
  | some v => jsToString v

/-- JavaScript property access v[k].  On objects: first binding of the
key. On arrays and strings: canonical integer indices.  On other
primitives: undefined.  (Access on null throws; the one place the source
can do that is modelled separately in the handler.) -/
def getProp : JVal → String → Option JVal
  | .jobj l, k => l.lookup k
  | .jarr xs, k =>
      match k.toNat? with
      | some i => if toString i = k then xs.get? i else none
      | none => none
  | .jstr s, k =>
      match k.toNat? with
      | some i => if toString i = k then (s.data.get? i).map (fun c => JVal.jstr (String.mk [c])) else none
      | none => none
  | _, _ => none

/-- JavaScript Object.keys. -/
def jsKeys : JVal → List String
  | .jobj l => l.map (·.1)
  | .jarr xs => (List.range xs.length).map toString
  | .jstr s => (List.range s.length).map toString
  | _ => []

/-- JavaScript a or-else b on possibly-undefined values: the first
operand when truthy, otherwise the second. -/
def jsOrJ (a b : Option JVal) : Option JVal :=
  if jsTruthyO a then a else b

/-- Truthiness of a possibly-undefined string. -/
def strTruthyO : Option String → Bool
  | none => false
  | some s => !(s == "")

/-- JavaScript a or-else b on possibly-undefined strings. -/
def strOrO (a b : Option String) : Option String :=
  if strTruthyO a then a else b

/-- Whether pat occurs as a contiguous run inside hay. -/
def listHasInfix (pat : List Char) : List Char → Bool
  | [] => pat.isEmpty
  | c :: t => pat.isPrefixOf (c :: t) || listHasInfix pat t

/-- Split a character list on a separator character (the JavaScript
split with a one-character separator). -/
def splitOnChar (c : Char) : List Char → List (List Char)
  | [] => [[]]
  | x :: xs =>
    match splitOnChar c xs with
    | [] => [[]]
    | h :: t => if x = c then [] :: h :: t else (x :: h) :: t

/-- JavaScript String.prototype.trim on a character list. -/
def trimChars (l : List Char) : List Char :=
  ((l.dropWhile Char.isWhitespace).reverse.dropWhile Char.isWhitespace).reverse

/-- JavaScript s.startsWith(c) for a one-character prefix. -/
def strStarts (s : String) (c : Char) : Bool :=
  s.data.head? == some c

/-- JavaScript s.includes(pat). -/
def strIncludes (s pat : String) : Bool :=
  listHasInfix pat.data s.data

/- ===================== Phone Normalizer =====================
Embedding of formatPhoneNumber (webhook.js lines 129-144). -/

/-- The regex replace of all whitespace and hyphens with nothing. -/
def stripPhoneChars (l : List Char) : List Char :=
  l.filter (fun c => !(c.isWhitespace || c == '-'))

/-- The regex replace of one leading "44" with nothing. -/
def strip44 (l : List Char) : List Char :=
  if l.take 2 = ['4', '4'] then l.drop 2 else l

/-- Core of formatPhoneNumber on the cleaned character list: a leading
national trunk 0 is replaced by +44; a string already starting with +
passes through; anything else is prefixed with +44 after dropping one
redundant leading 44. -/
def formatPhoneList (l : List Char) : List Char :=
  if l.head? = some '0' then '+' :: '4' :: '4' :: l.tail
  else if l.head? = some '+' then l
  else '+' :: '4' :: '4' :: strip44 l

/-- formatPhoneNumber from the source: falsy input gives null, otherwise
spaces and hyphens are stripped and the +44 canonicalization applied. -/
def formatPhoneNumber (p : Option String) : Option String :=
  match p with
  | none => none
  | some s => if s = "" then none else some (String.mk (formatPhoneList (stripPhoneChars s.data)))

/-- formatPhoneNumber as invoked on a raw JSON field value: a falsy
value returns null, a truthy string goes through the normalizer, and a
truthy non-string throws (phone.replace is not a function). -/
def formatPhoneNumberJ (v : Option JVal) : Except String (Option String) :=
  if jsTruthyO v then
    match v with
    | some (.jstr s) => .ok (formatPhoneNumber (some s))
    | _ => .error "phone.replace is not a function"
  else .ok none

/-- CanonicalPhone predicate from the spec data model: a string
beginning with + followed only by digits. -/
def isCanonicalPhone (s : String) : Bool :=
  match s.data with
  | '+' :: rest => rest.all Char.isDigit
  | _ => false

/- ===================== Message Formatter =====================
Embedding of formatFormDataMessage (webhook.js lines 151-203). -/

/-- The keys excluded from the generic trailing section of the rendered
message (the recognized semantic keys of the source). -/
def recognizedKeys : List String :=
  ["name", "firstName", "lastName", "email", "phone", "service", "message", "websiteUrl"]

/-- JavaScript k.charAt(0).toUpperCase() + k.slice(1) for ASCII keys. -/
def capFirst (k : String) : String :=
  match k.data with
  | [] => ""
  | c :: r => String.mk (Char.toUpper c :: r)

/-- One semantic line of the rendered message: emitted only when the
field value is truthy. -/
def semanticLine (fd : JVal) (label key : String) : List String :=
  if jsTruthyO (getProp fd key) then [label ++ ": " ++ jsToStringO (getProp fd key)] else []

/-- The Name line: the name field when truthy, otherwise the truthy
parts of firstName and lastName joined with one space. -/
def nameLines (fd : JVal) : List String :=
  if jsTruthyO (getProp fd "name") then
    ["Name: " ++ jsToStringO (getProp fd "name")]
  else if jsTruthyO (getProp fd "firstName") || jsTruthyO (getProp fd "lastName") then
    let full := String.intercalate " "
      (([getProp fd "firstName", getProp fd "lastName"].filter jsTruthyO).map jsToStringO)
    if full = "" then [] else ["Name: " ++ full]
  else []

/-- The generic trailing lines: every enumerable key not starting with
an underscore and not among the recognized keys, with its first letter
capitalized, in key iteration order. -/
def genericLines (fd : JVal) : List String :=
  (jsKeys fd).filterMap fun k =>
    if !(strStarts k '_') && !(recognizedKeys.contains k) then
      some (capFirst k ++ ": " ++ jsToStringO (getProp fd k))
    else none

/-- formatFormDataMessage from the source: fixed header, then the
semantic lines in fixed order, then the generic lines. -/
def formatFormDataMessage (fd : JVal) : String :=
  String.intercalate "\n"
    (["📝 New Form Submission"]
      ++ nameLines fd
      ++ semanticLine fd "Email" "email"
      ++ semanticLine fd "Phone" "phone"
      ++ semanticLine fd "Service" "service"
      ++ semanticLine fd "Message" "message"
      ++ semanticLine fd "Website" "websiteUrl"
      ++ genericLines fd)

/- ===================== Mapping Table Loader =====================
Embedding of loadWebsiteNumberMap / getPhoneForWebsite
(webhook.js lines 18-63). -/

/-- One mapping-table entry: the client (destination) number and the
optional Twilio sender override. -/
structure MapEntry where
  clientNumber : String
  twilioNumber : Option String
  deriving DecidableEq

/-- JavaScript object assignment m[k] = v on an association list: the
first binding of k is replaced in place, a fresh key is appended. -/
def insertAssoc (m : List (String × MapEntry)) (k : String) (v : MapEntry) : List (String × MapEntry) :=
  match m with
  | [] => [(k, v)]
  | (k0, v0) :: rest => if k0 = k then (k0, v) :: rest else (k0, v0) :: insertAssoc rest k v

/-- The kept rows of the table text, in order: lines are split on
newlines, blank lines removed, the header dropped, each remaining line
split on commas with every field trimmed; rows with fewer than three
fields or an empty origin key or client number are dropped, and an
empty third field becomes an absent sender override. -/
def mapRows (content : String) : List (String × MapEntry) :=
  let lines := (splitOnChar '\n' content.data).filter (fun l => !((trimChars l).isEmpty))
  (lines.drop 1).filterMap fun line =>
    let parts := (splitOnChar ',' line).map (fun p => String.mk (trimChars p))
    if parts.length ≥ 3 then
      let w := parts.getD 0 ""
      let c := parts.getD 1 ""
      let tw := parts.getD 2 ""
      if !(w == "") && !(c == "") then
        some (w, ⟨c, if tw = "" then none else some tw⟩)
      else none
    else none

/-- loadWebsiteNumberMap from the source: a failed file read (modelled
as an absent table) yields the empty mapping; otherwise the kept rows
are assigned into an object left to right. -/
def loadWebsiteNumberMap (table : Option String) : List (String × MapEntry) :=
  match table with
  | none => []
  | some content => (mapRows content).foldl (fun m r => insertAssoc m r.1 r.2) []

/-- getPhoneForWebsite from the source: reload the table and look the
key up exactly. -/
def getPhoneForWebsite (table : Option String) (url : String) : Option MapEntry :=
  (loadWebsiteNumberMap table).lookup url

/- ===================== SMS and Slack delivery =====================
Embedding of sendTwilioSMS (webhook.js lines 72-122) and sendToSlack
(lines 210-267).  The Twilio client call and the Slack fetch are the
external collaborators: they are modelled as oracles mapping the call
arguments to either a result or a thrown error. -/

/-- Environment configuration read from process.env. -/
structure Config where
  accountSid : Option String
  authToken : Option String
  twilioFrom : Option String
  slackUrl : Option String

/-- Result of one sendTwilioSMS call that did not throw. -/
inductive SmsRes where
  | skipped : SmsRes
  | sent : String → SmsRes
  deriving DecidableEq

/-- The Twilio network call: from, to, body to either a message sid or
a thrown error. -/
def TwilioOracle : Type := String → String → String → Except String String

/-- sendTwilioSMS from the source: the sender is the override when
truthy else the configured default; missing credentials, a falsy
recipient, or a recipient without a leading + give a skipped result;
otherwise the Twilio call is made and its error rethrown. -/
def sendTwilioSMS (cfg : Config) (t : TwilioOracle) (message : String)
    (toPhone : Option String) (fromOverride : Option String) : Except String SmsRes :=
  let fromPhone := strOrO fromOverride cfg.twilioFrom
  if !(strTruthyO cfg.accountSid) || !(strTruthyO cfg.authToken) || !(strTruthyO fromPhone) then
    .ok .skipped
  else if !(strTruthyO toPhone) then
    .ok .skipped
  else
    let toP := toPhone.getD ""
    let fr := fromPhone.getD ""
    if !(strStarts toP '+') then .ok .skipped
    else (t fr toP message).map SmsRes.sent

/-- Result of one sendToSlack call that did not throw: skipped, or the
JSON value the fetch response resolved to. -/
inductive SlackRes where
  | skipped : SlackRes
  | okJson : JVal → SlackRes

/-- The Slack fetch: either the parsed JSON of a successful response,
or a thrown error (network failure, non-ok status, or body parse
failure). -/
def SlackOracle : Type := Except String JVal

/-- The placeholder URL baked into the source. -/
def slackPlaceholderUrl : String := "https://hooks.slack.com/services/YOUR/WEBHOOK/URL"

/-- sendToSlack from the source: the configured URL when truthy else
the placeholder; a falsy URL or one containing the placeholder marker
is skipped; otherwise the fetch result is returned and its error
rethrown. -/
def sendToSlack (cfg : Config) (o : SlackOracle) : Except String SlackRes :=
  let url := strOrO cfg.slackUrl (some slackPlaceholderUrl)
  if !(strTruthyO url) || strIncludes (url.getD "") "YOUR/WEBHOOK/URL" then
    .ok .skipped
  else
    o.map SlackRes.okJson

/- ===================== Dispatch Orchestrator =====================
Embedding of the per-channel dispatch inside the POST branch of the
handler (webhook.js lines 472-573).  Each channel body is the code
inside one try block; the surrounding catch is Except.toOption. -/

/-- The fixed additional recipient of the source. -/
def additionalNumber : String := "+447862139959"

/-- The fixed customer confirmation text of the source. -/
def confirmationMessage : String :=
  "Thanks for your message! We\x27ve received your contact form submission and will reply as soon as possible - keep on the lookout for a text message or a call."

/-- The origin value resolved from the submission: websiteUrl, else
website, else siteUrl, under JavaScript truthiness. -/
def originValue (fd : JVal) : Option JVal :=
  jsOrJ (jsOrJ (getProp fd "websiteUrl") (getProp fd "website")) (getProp fd "siteUrl")

/-- Channel 1a body (mapped-client SMS): resolve the origin, look it up
in the freshly loaded table, canonicalize the client number only when
it lacks a leading +, then send with the sender override when truthy. -/
def chan1Run (cfg : Config) (t : TwilioOracle) (table : Option String)
    (msg : String) (fd : JVal) : Except String SmsRes :=
  let wv := originValue fd
  if jsTruthyO wv then
    match getPhoneForWebsite table (jsToStringO wv) with
    | some e =>
        if !(e.clientNumber == "") then
          let clientPhone :=
            if strStarts e.clientNumber '+' then some e.clientNumber
            else formatPhoneNumber (some e.clientNumber)
          let twilioFromNumber := if strTruthyO e.twilioNumber then e.twilioNumber else none
          sendTwilioSMS cfg t msg clientPhone twilioFromNumber
        else .ok .skipped
    | none => .ok .skipped
  else .ok .skipped

/-- Channel 1b body (additional-number SMS): the form message to the
fixed additional number with the default sender. -/
def chan1bRun (cfg : Config) (t : TwilioOracle) (msg : String) : Except String SmsRes :=
  sendTwilioSMS cfg t msg (some additionalNumber) none

/-- Channel 2 body (customer confirmation SMS): canonicalize the phone
field; send the fixed confirmation text when the result is truthy. -/
def chan2Run (cfg : Config) (t : TwilioOracle) (fd : JVal) : Except String SmsRes :=
  match formatPhoneNumberJ (getProp fd "phone") with
  | .error e => .error e
  | .ok customerPhone =>
      if strTruthyO customerPhone then
        sendTwilioSMS cfg t confirmationMessage customerPhone none
      else .ok .skipped

/-- The summary flag for one SMS channel, as computed by
r && !r.skipped in the response body: null when the channel threw,
false when skipped, true when sent. -/
def smsFlag : Option SmsRes → JVal
  | none => .jnull
  | some .skipped => .jbool false
  | some (.sent _) => .jbool true

/-- The summary flag for the Slack channel: null when it threw, false
when skipped, otherwise the truthiness computation on the returned
JSON value. -/
def slackFlag : Option SlackRes → JVal
  | none => .jnull
  | some .skipped => .jbool false
  | some (.okJson j) =>
      if jsTruthy j then .jbool (!(jsTruthyO (getProp j "skipped"))) else j

/- ===================== HTTP handler =====================
Embedding of exports.handler (webhook.js lines 294-600). -/

/-- The body JSON.parse produced from the raw request body: either a
thrown parse error with its message, or the parsed value. -/
inductive ParseOut where
  | malformed : String → ParseOut
  | val : JVal → ParseOut

/-- The inbound Netlify event (body already classified by the runtime
JSON parser; an absent body also covers the falsy empty raw string,
which the source replaces by the empty object text). -/
structure Event where
  httpMethod : String
  headers : List (String × String)
  queryStringParameters : Option (List (String × String))
  body : Option ParseOut

/-- A response body: the empty string or a JSON document. -/
inductive RBody where
  | empty : RBody
  | json : JVal → RBody

/-- The handler response. -/
structure Response where
  statusCode : Nat
  rheaders : List (String × String)
  body : RBody

/-- The CORS headers attached to ordinary responses. -/
def stdHeaders : List (String × String) :=
  [("Content-Type", "application/json"),
   ("Access-Control-Allow-Origin", "*"),
   ("Access-Control-Allow-Headers", "Content-Type"),
   ("Access-Control-Allow-Methods", "GET, POST, OPTIONS")]

/-- The headers of a handshake echo response, mirroring the received
secret. -/
def echoHeaders (secret : String) : List (String × String) :=
  [("Content-Type", "application/json"),
   ("Access-Control-Allow-Origin", "*"),
   ("X-Hook-Secret", secret)]

/-- The hook-secret lookup of the source: the lowercase header name
first, the original casing second, combined with JavaScript or-else. -/
def hookSecretOf (headers : List (String × String)) : Option String :=
  strOrO (headers.lookup "x-hook-secret") (headers.lookup "X-Hook-Secret")

/-- Whether a value is null (property access on it would throw). -/
def isJNull : JVal → Bool
  | .jnull => true
  | _ => false

/-- Whether a possibly-undefined value is truthy and of JavaScript
typeof object, the guard the envelope unwrapping tests. -/
def isObjTypeO : Option JVal → Bool
  | some (.jobj _) => true
  | some (.jarr _) => true
  | _ => false

/-- The envelope unwrapping of the source: replace the working object
by its submission, data, or payload property, in that order, when that
property holds a truthy value of typeof object (an object or an
array; null is falsy); at most one unwrap. -/
def unwrapEnvelope (v : JVal) : JVal :=
  if isObjTypeO (getProp v "submission") then (getProp v "submission").getD v
  else if isObjTypeO (getProp v "data") then (getProp v "data").getD v
  else if isObjTypeO (getProp v "payload") then (getProp v "payload").getD v
  else v

/-- The 200 response body of a processed submission. -/
def successBody (now : String) (sR : Option SlackRes) (r1 r1b r2 : Option SmsRes) : JVal :=
  .jobj [("success", .jbool true),
         ("message", .jstr "Webhook received and processed"),
         ("receivedAt", .jstr now),
         ("slackSent", slackFlag sR),
         ("businessSmsSent", smsFlag r1),
         ("additionalSmsSent", smsFlag r1b),
         ("customerSmsSent", smsFlag r2)]

/-- The POST data path after the handshake check: parse-classified body
to either a 400, or the fan-out over the four channels and the 200
summary.  The fire-and-forget log call of the source has no effect on
the response and is not modelled. -/
def handlePostData (cfg : Config) (o : SlackOracle) (t : TwilioOracle)
    (table : Option String) (now : String) (ev : Event) : Response :=
  match ev.body with
  | some (.malformed m) =>
      ⟨400, stdHeaders, .json (.jobj [("error", .jstr "Invalid JSON in request body"),
                                      ("details", .jstr m)])⟩
  | other =>
    let rawBody := match other with
      | some (.val v) => v
      | _ => .jobj []
    if isJNull rawBody then
      ⟨400, stdHeaders, .json (.jobj [("error", .jstr "Invalid JSON in request body"),
                                      ("details", .jstr "Cannot read properties of null (reading \x27submission\x27)")])⟩
    else
      let fd := unwrapEnvelope rawBody
      if !(jsTruthy fd) || (jsKeys fd).isEmpty then
        ⟨400, stdHeaders, .json (.jobj [("error", .jstr "No form data received")])⟩
      else
        let formMessage := formatFormDataMessage fd
        let slackResult := (sendToSlack cfg o).toOption
        let smsResult1 := (chan1Run cfg t table formMessage fd).toOption
        let smsResult1b := (chan1bRun cfg t formMessage).toOption
        let smsResult2 := (chan2Run cfg t fd).toOption
        ⟨200, stdHeaders, .json (successBody now slackResult smsResult1 smsResult1b smsResult2)⟩

/-- exports.handler from the source. -/
def handler (cfg : Config) (o : SlackOracle) (t : TwilioOracle)
    (table : Option String) (now : String) (ev : Event) : Response :=
  if ev.httpMethod = "OPTIONS" then
    ⟨200, stdHeaders, .empty⟩
  else if ev.httpMethod = "GET" then
    let hookSecret := hookSecretOf ev.headers
    if strTruthyO hookSecret then
      ⟨200, echoHeaders (hookSecret.getD ""), .empty⟩
    else
      let challenge := ev.queryStringParameters.bind (fun q => q.lookup "challenge")
      if strTruthyO challenge then
        ⟨200, stdHeaders, .json (.jobj [("challenge", .jstr (challenge.getD "")),
                                        ("message", .jstr "REST Hook endpoint verified")])⟩
      else
        ⟨200, stdHeaders, .json (.jobj [("message", .jstr "Formspree webhook endpoint is active"),
                                        ("method", .jstr "GET"),
                                        ("timestamp", .jstr now)])⟩
  else if ev.httpMethod = "POST" then
    let hookSecret := hookSecretOf ev.headers
    if strTruthyO hookSecret then
      ⟨200, echoHeaders (hookSecret.getD ""), .empty⟩
    else handlePostData cfg o t table now ev
  else
    ⟨405, stdHeaders, .json (.jobj [("error", .jstr "Method not allowed"),
                                    ("allowedMethods", .jarr [.jstr "GET", .jstr "POST", .jstr "OPTIONS"])])⟩

/- ===================== Statement helpers and spec-side definitions ===================== -/

/-- Whether a raw parsed body survives the validation of the POST path:
not null, and truthy with at least one enumerable key after envelope
unwrapping. -/
def validSubmission (raw : JVal) : Bool :=
  !(isJNull raw) && jsTruthy (unwrapEnvelope raw) && !((jsKeys (unwrapEnvelope raw)).isEmpty)

/-- The property k of a JSON response body (undefined on an empty
body). -/
def getRespProp (r : Response) (k : String) : Option JVal :=
  match r.body with
  | .json v => getProp v k
  | .empty => none

/-- The last table row whose origin key equals k, if any: the reference
reading of duplicate-key resolution. -/
def lastRowLookup (rows : List (String × MapEntry)) (k : String) : Option MapEntry :=
  (rows.reverse.find? (fun r => r.1 == k)).map Prod.snd

/-- An input the phone normalizer is designed for (modelled from the
amended reading of the CanonicalPhone claim): after removing spaces and
hyphens it is an optional leading + followed by one or more digits. -/
def goodPhoneInput (s : String) : Bool :=
  let c := stripPhoneChars s.data
  let d := if c.head? = some '+' then c.tail else c
  !(d.isEmpty) && d.all Char.isDigit

/-- The fixed header line of the rendered message, as the spec states
it. -/
def specHeaderLine : String := "📝 New Form Submission"

/-- Spec-side reading of one semantic line: rendered exactly when the
key holds a present non-empty value. -/
def specFieldLine (fd : JVal) (label key : String) : List String :=
  match getProp fd key with
  | some v => if jsTruthy v then [label ++ ": " ++ jsToString v] else []
  | none => []

/-- Spec-side reading of the composed name: the truthy parts of
firstName and lastName joined by a single space, when at least one is
present. -/
def specComposedName (fd : JVal) : Option String :=
  let fs := [getProp fd "firstName", getProp fd "lastName"]
  if fs.any jsTruthyO then
    let joined := String.intercalate " " ((fs.filter jsTruthyO).map jsToStringO)
    if joined = "" then none else some joined
  else none

/-- Spec-side reading of the Name value: the name field itself when
present and non-empty, else the composed first/last name. -/
def specNameValue (fd : JVal) : Option String :=
  match getProp fd "name" with
  | some v => if jsTruthy v then some (jsToString v) else specComposedName fd
  | none => specComposedName fd

/-- The ordered label table of the remaining semantic fields, as the
amended claim states it: no alias keys are consulted. -/
def specSemanticTable : List (String × String) :=
  [("Email", "email"), ("Phone", "phone"), ("Service", "service"),
   ("Message", "message"), ("Website", "websiteUrl")]

/-- Spec-side rendering of the full message (modelled from the amended
claim): header, then the Name line, then one line per semantic field in
fixed order keyed only on its primary key, then the remaining fields
excluding reserved-prefix and recognized keys, capitalized, in
iteration order. -/
def renderSpecC8 (fd : JVal) : String :=
  String.intercalate "\n"
    ([specHeaderLine]
      ++ (match specNameValue fd with
          | some n => ["Name: " ++ n]
          | none => [])
      ++ specSemanticTable.foldr (fun p acc => specFieldLine fd p.1 p.2 ++ acc) []
      ++ (jsKeys fd).filterMap (fun k =>
            if strStarts k '_' = true ∨ recognizedKeys.contains k = true then none
            else some (capFirst k ++ ": " ++ jsToStringO (getProp fd k))))

/- ===================== Helper lemmas ===================== -/

theorem lookup_insertAssoc (m : List (String × MapEntry)) (k : String) (v : MapEntry) (k1 : String) :
    (insertAssoc m k v).lookup k1 = if k1 = k then some v else m.lookup k1 := by
  induction m with
  | nil =>
      simp only [insertAssoc, List.lookup]
      by_cases h : k1 = k
      · simp [h]
      · simp [h, (by simpa using h : (k1 == k) = false)]
  | cons hd tl ih =>
      obtain ⟨k0, v0⟩ := hd
      simp only [insertAssoc]
      by_cases h0 : k0 = k
      · subst h0
        by_cases h1 : k1 = k0
        · simp [h1, List.lookup]
        · simp [List.lookup, (by simpa using h1 : (k1 == k0) = false), h1]
      · simp only [if_neg h0]
        by_cases h1 : k1 = k0
        · subst h1
          have : k1 ≠ k := fun h => h0 (h ▸ rfl)
          simp [List.lookup, this]
        · simp [List.lookup, (by simpa using h1 : (k1 == k0) = false), ih]

theorem foldl_insert_lookup (rows : List (String × MapEntry)) (acc : List (String × MapEntry)) (k : String) :
    (rows.foldl (fun m r => insertAssoc m r.1 r.2) acc).lookup k =
      match rows.reverse.find? (fun r => r.1 == k) with
      | some r => some r.2
      | none => acc.lookup k := by
  induction rows generalizing acc with
  | nil => simp
  | cons r rest ih =>
      simp only [List.foldl_cons, List.reverse_cons, List.find?_append]
      rw [ih]
      cases hf : rest.reverse.find? (fun r => r.1 == k) with
      | some r1 => simp [hf]
      | none =>
          simp only [hf]
          rw [lookup_insertAssoc]
          by_cases h : r.1 = k
          · simp [List.find?, h, if_pos h.symm]
          · simp [List.find?, (by simpa using h : (r.1 == k) = false), if_neg (Ne.symm h)]

theorem getPhone_lastRow (content : String) (k : String) :
    getPhoneForWebsite (some content) k = lastRowLookup (mapRows content) k := by
  unfold getPhoneForWebsite loadWebsiteNumberMap lastRowLookup
  rw [foldl_insert_lookup]
  cases hf : (mapRows content).reverse.find? (fun r => r.1 == k) <;> simp [List.lookup]

theorem mapRows_entries (content : String) :
    ∀ r ∈ mapRows content, r.1 ≠ "" ∧ r.2.clientNumber ≠ "" ∧ r.2.twilioNumber ≠ some "" := by
  intro r hr
  unfold mapRows at hr
  rw [List.mem_filterMap] at hr
  obtain ⟨line, _, hline⟩ := hr
  dsimp only at hline
  split at hline
  · split at hline
    · rename_i hcond
      injection hline with hline
      subst hline
      simp only [Bool.and_eq_true, bne_iff_ne, ne_eq, Bool.not_eq_true', beq_eq_false_iff_ne] at hcond
      refine ⟨hcond.1, hcond.2, ?_⟩
      dsimp only
      split
      · exact fun h => Option.noConfusion h
      · rename_i htw
        intro h
        injection h with h
        exact htw h
    · exact absurd hline (by simp)
  · exact absurd hline (by simp)

theorem getPhone_entry_inv (table : Option String) (k : String) (e : MapEntry) :
    getPhoneForWebsite table k = some e → k ≠ "" ∧ e.clientNumber ≠ "" ∧ e.twilioNumber ≠ some "" := by
  intro h
  cases table with
  | none => simp [getPhoneForWebsite, loadWebsiteNumberMap, List.lookup] at h
  | some content =>
      rw [getPhone_lastRow] at h
      unfold lastRowLookup at h
      cases hf : (mapRows content).reverse.find? (fun r => r.1 == k) with
      | none => rw [hf] at h; simp at h
      | some r =>
          rw [hf] at h
          have h2 : r.2 = e := by simpa using h
          have hmem : r ∈ mapRows content := List.mem_reverse.mp (List.mem_of_find?_eq_some hf)
          have hk : r.1 = k := by
            have hpred := List.find?_some hf
            simpa using hpred
          have hinv := mapRows_entries content r hmem
          exact ⟨hk ▸ hinv.1, h2 ▸ hinv.2.1, h2 ▸ hinv.2.2⟩

/- ===================== Claim C4 ===================== -/

/-- C4: the mapping table loader skips the header line, splits each
subsequent non-blank line on commas trimming every field, silently
drops rows with fewer than 3 fields or an empty originKey or
destinationNumber, resolves duplicate keys by last write wins, and on
any read error returns an empty mapping; lookup is exact and
case-sensitive, and on the table "header\nhttps://x.com,+441,+442" a
lookup for "https://x.com" yields destination "+441" with sender
override "+442" while "https://y.com" yields no entry. -/
theorem mapping_loader_contract :
    loadWebsiteNumberMap none = [] ∧
    getPhoneForWebsite (some "header\nhttps://x.com,+441,+442") "https://x.com"
      = some ⟨"+441", some "+442"⟩ ∧
    getPhoneForWebsite (some "header\nhttps://x.com,+441,+442") "https://y.com" = none ∧
    getPhoneForWebsite (some "https://x.com,+441,+442") "https://x.com" = none ∧
    getPhoneForWebsite (some "header\n https://x.com , +441 , +442 ") "https://x.com"
      = some ⟨"+441", some "+442"⟩ ∧
    getPhoneForWebsite (some "header\nhttps://x.com,+441") "https://x.com" = none ∧
    getPhoneForWebsite (some "header\nhttps://x.com,,+442") "https://x.com" = none ∧
    getPhoneForWebsite (some "header\n,+441,+442") "" = none ∧
    getPhoneForWebsite (some "header\nhttps://x.com,+441,+442") "HTTPS://X.COM" = none ∧
    (∀ content k, getPhoneForWebsite (some content) k = lastRowLookup (mapRows content) k) ∧
    (∀ table k e, getPhoneForWebsite table k = some e → e.clientNumber ≠ "" ∧ k ≠ "") := by
  refine ⟨rfl, rfl, rfl, rfl, rfl, rfl, rfl, rfl, rfl, getPhone_lastRow, ?_⟩
  intro table k e h
  have hinv := getPhone_entry_inv table k e h
  exact ⟨hinv.2.1, hinv.1⟩

/-- Witness for C4: the general conjuncts applied at the concrete table
of the claim, with the lookup hypothesis discharged by computation. -/
theorem mapping_loader_contract_witness :
    getPhoneForWebsite (some "header\nhttps://x.com,+441,+442") "https://x.com"
      = some ⟨"+441", some "+442"⟩ ∧
    (MapEntry.clientNumber ⟨"+441", some "+442"⟩ ≠ "" ∧ "https://x.com" ≠ "") ∧
    getPhoneForWebsite (some "header\nhttps://x.com,+441,+442\nhttps://x.com,+443,+444") "https://x.com"
      = lastRowLookup (mapRows "header\nhttps://x.com,+441,+442\nhttps://x.com,+443,+444") "https://x.com" := by
  have h := mapping_loader_contract
  refine ⟨h.2.1, ?_, ?_⟩
  · exact h.2.2.2.2.2.2.2.2.2.2 (some "header\nhttps://x.com,+441,+442") "https://x.com"
      ⟨"+441", some "+442"⟩ h.2.1
  · exact h.2.2.2.2.2.2.2.2.2.1 "header\nhttps://x.com,+441,+442\nhttps://x.com,+443,+444" "https://x.com"

/- ===================== Phone helper lemmas ===================== -/

theorem formatPhoneList_cons0 (r : List Char) :
    formatPhoneList ('0' :: r) = '+' :: '4' :: '4' :: r := by
  simp [formatPhoneList]

theorem formatPhoneList_consPlus (r : List Char) :
    formatPhoneList ('+' :: r) = '+' :: r := by
  simp [formatPhoneList]

theorem formatPhoneList_other (l : List Char) (h0 : l.head? ≠ some '0') (hp : l.head? ≠ some '+') :
    formatPhoneList l = '+' :: '4' :: '4' :: strip44 l := by
  unfold formatPhoneList
  rw [if_neg h0, if_neg hp]

theorem strip44_all_digits (l : List Char) (h : l.all Char.isDigit = true) :
    (strip44 l).all Char.isDigit = true := by
  unfold strip44
  split
  · exact List.all_eq_true.mpr fun x hx => List.all_eq_true.mp h x (List.drop_subset _ _ hx)
  · exact h

/- ===================== Claim C6 ===================== -/

/-- C6: the phone normalizer maps absent (falsy) input to absent
output; otherwise it strips spaces and hyphens from the input, then: a
cleaned string starting with the national trunk digit 0 has that single
digit replaced by +44; a cleaned string not starting with + is prefixed
with +44 after first dropping one redundant leading 44; a cleaned
string already starting with + is returned unchanged; in particular
"07792145328" maps to "+447792145328" and "+447792145328" to itself. -/
theorem phone_normalizer_contract :
    formatPhoneNumber none = none ∧
    formatPhoneNumber (some "") = none ∧
    (∀ s r, s ≠ "" → stripPhoneChars s.data = '0' :: r →
      formatPhoneNumber (some s) = some (String.mk ('+' :: '4' :: '4' :: r))) ∧
    (∀ s r, s ≠ "" → stripPhoneChars s.data = '+' :: r →
      formatPhoneNumber (some s) = some (String.mk ('+' :: r))) ∧
    (∀ s, s ≠ "" → (stripPhoneChars s.data).head? ≠ some '0' →
      (stripPhoneChars s.data).head? ≠ some '+' →
      formatPhoneNumber (some s) = some (String.mk ('+' :: '4' :: '4' :: strip44 (stripPhoneChars s.data)))) ∧
    formatPhoneNumber (some "07792145328") = some "+447792145328" ∧
    formatPhoneNumber (some "+447792145328") = some "+447792145328" := by
  refine ⟨rfl, rfl, ?_, ?_, ?_, rfl, rfl⟩
  · intro s r hs hc
    simp only [formatPhoneNumber, if_neg hs, hc, formatPhoneList_cons0]
  · intro s r hs hc
    simp only [formatPhoneNumber, if_neg hs, hc, formatPhoneList_consPlus]
  · intro s hs h0 hp
    simp only [formatPhoneNumber, if_neg hs, formatPhoneList_other _ h0 hp]

/-- Witness for C6: the general clauses applied to literal inputs. -/
theorem phone_normalizer_contract_witness :
    ("07792145328" ≠ "" ∧ stripPhoneChars "07792145328".data = '0' :: "7792145328".data ∧
      formatPhoneNumber (some "07792145328") = some (String.mk ('+' :: '4' :: '4' :: "7792145328".data))) ∧
    ("+44779" ≠ "" ∧ stripPhoneChars "+44779".data = '+' :: "44779".data ∧
      formatPhoneNumber (some "+44779") = some (String.mk ('+' :: "44779".data))) ∧
    ("447792" ≠ "" ∧ formatPhoneNumber (some "447792") = some (String.mk ('+' :: '4' :: '4' :: strip44 (stripPhoneChars "447792".data)))) := by
  have h := phone_normalizer_contract
  refine ⟨⟨by decide, by decide, ?_⟩, ⟨by decide, by decide, ?_⟩, ⟨by decide, ?_⟩⟩
  · exact h.2.2.1 "07792145328" "7792145328".data (by decide) (by decide)
  · exact h.2.2.2.1 "+44779" "44779".data (by decide) (by decide)
  · exact h.2.2.2.2.1 "447792" (by decide) (by decide) (by decide)

/- ===================== Claim C7 ===================== -/

/-- Counterexample for C7: the present input "abc" is normalized to
"+44abc", which is not a string of digits after the leading +, so the
normalizer does not always produce a CanonicalPhone. -/
theorem phone_canonical_cex :
    formatPhoneNumber (some "abc") = some "+44abc" ∧ isCanonicalPhone "+44abc" = false := by
  exact ⟨rfl, rfl⟩

/-- C7 amended: for every input that, after stripping spaces and
hyphens, is an optional leading + followed by one or more digits, the
normalizer output is a CanonicalPhone (a + followed only by digits). -/
theorem phone_canonical_amended (s : String) (hg : goodPhoneInput s = true) :
    ∃ u, formatPhoneNumber (some s) = some u ∧ isCanonicalPhone u = true := by
  simp only [goodPhoneInput, Bool.and_eq_true, Bool.not_eq_true'] at hg
  obtain ⟨hne, hdig⟩ := hg
  have hs : s ≠ "" := by
    intro hemp
    subst hemp
    exact absurd hne (by decide)
  have hform : formatPhoneNumber (some s)
      = some (String.mk (formatPhoneList (stripPhoneChars s.data))) := by
    simp only [formatPhoneNumber, if_neg hs]
  by_cases h0 : (stripPhoneChars s.data).head? = some '0'
  · obtain ⟨r, hr⟩ : ∃ r, stripPhoneChars s.data = '0' :: r := by
      cases hcl : stripPhoneChars s.data with
      | nil => rw [hcl] at h0; simp at h0
      | cons ch rest =>
          rw [hcl] at h0
          simp only [List.head?_cons, Option.some.injEq] at h0
          exact ⟨rest, by rw [h0]⟩
    have hcp : ¬ ((stripPhoneChars s.data).head? = some '+') := by
      rw [hr]
      simp
    rw [if_neg hcp] at hdig
    rw [hr] at hdig
    simp only [List.all_cons, Bool.and_eq_true] at hdig
    refine ⟨String.mk ('+' :: '4' :: '4' :: r), ?_, ?_⟩
    · rw [hform, hr, formatPhoneList_cons0]
    · simp only [isCanonicalPhone]
      simp [hdig.2]
  · by_cases hp : (stripPhoneChars s.data).head? = some '+'
    · obtain ⟨r, hr⟩ : ∃ r, stripPhoneChars s.data = '+' :: r := by
        cases hcl : stripPhoneChars s.data with
        | nil => rw [hcl] at hp; simp at hp
        | cons ch rest =>
            rw [hcl] at hp
            simp only [List.head?_cons, Option.some.injEq] at hp
            exact ⟨rest, by rw [hp]⟩
      rw [if_pos hp, hr] at hdig
      simp only [List.tail_cons] at hdig
      refine ⟨String.mk ('+' :: r), ?_, ?_⟩
      · rw [hform, hr, formatPhoneList_consPlus]
      · simpa only [isCanonicalPhone] using hdig
    · rw [if_neg hp] at hdig
      refine ⟨String.mk ('+' :: '4' :: '4' :: strip44 (stripPhoneChars s.data)), ?_, ?_⟩
      · rw [hform, formatPhoneList_other _ h0 hp]
      · simp only [isCanonicalPhone]
        simp [strip44_all_digits _ hdig]

/-- Witness for C7 amended: the theorem applied to a literal input in
national format. -/
theorem phone_canonical_amended_witness :
    goodPhoneInput "07792 145-328" = true ∧
    ∃ u, formatPhoneNumber (some "07792 145-328") = some u ∧ isCanonicalPhone u = true := by
  exact ⟨by decide, phone_canonical_amended "07792 145-328" (by decide)⟩

/- ===================== Claim C5 ===================== -/

/-- C5: for every JSON object body, a top-level submission, data, or
payload property holding an object replaces the working object, checked
in that priority order and unwrapped at most once; the four envelope
shapes of the claim normalize to the identical field map, and a doubly
nested envelope is unwrapped exactly once. -/
theorem envelope_unwrapping :
    (∀ l m, getProp (.jobj l) "submission" = some (.jobj m) →
      unwrapEnvelope (.jobj l) = .jobj m) ∧
    (∀ l m, isObjTypeO (getProp (.jobj l) "submission") = false →
      getProp (.jobj l) "data" = some (.jobj m) →
      unwrapEnvelope (.jobj l) = .jobj m) ∧
    (∀ l m, isObjTypeO (getProp (.jobj l) "submission") = false →
      isObjTypeO (getProp (.jobj l) "data") = false →
      getProp (.jobj l) "payload" = some (.jobj m) →
      unwrapEnvelope (.jobj l) = .jobj m) ∧
    (∀ l, isObjTypeO (getProp (.jobj l) "submission") = false →
      isObjTypeO (getProp (.jobj l) "data") = false →
      isObjTypeO (getProp (.jobj l) "payload") = false →
      unwrapEnvelope (.jobj l) = .jobj l) ∧
    unwrapEnvelope (.jobj [("submission", .jobj [("name", .jstr "A")])]) = .jobj [("name", .jstr "A")] ∧
    unwrapEnvelope (.jobj [("data", .jobj [("name", .jstr "A")])]) = .jobj [("name", .jstr "A")] ∧
    unwrapEnvelope (.jobj [("payload", .jobj [("name", .jstr "A")])]) = .jobj [("name", .jstr "A")] ∧
    unwrapEnvelope (.jobj [("name", .jstr "A")]) = .jobj [("name", .jstr "A")] ∧
    unwrapEnvelope (.jobj [("submission", .jobj [("submission", .jobj [("name", .jstr "A")])])])
      = .jobj [("submission", .jobj [("name", .jstr "A")])] ∧
    unwrapEnvelope (.jobj [("data", .jobj [("k", .jstr "D")]),
                           ("submission", .jobj [("k", .jstr "S")]),
                           ("payload", .jobj [("k", .jstr "P")])]) = .jobj [("k", .jstr "S")] := by
  refine ⟨?_, ?_, ?_, ?_, rfl, rfl, rfl, rfl, rfl, rfl⟩
  · intro l m h
    simp [unwrapEnvelope, h, isObjTypeO]
  · intro l m hs h
    simp only [unwrapEnvelope, hs]
    simp [h, isObjTypeO]
  · intro l m hs hd h
    simp only [unwrapEnvelope, hs, hd]
    simp [h, isObjTypeO]
  · intro l hs hd hp
    simp [unwrapEnvelope, hs, hd, hp]

/-- Witness for C5: the priority clauses applied to concrete envelopes,
hypotheses evaluated by computation. -/
theorem envelope_unwrapping_witness :
    unwrapEnvelope (.jobj [("data", .jobj [("name", .jstr "A")])]) = .jobj [("name", .jstr "A")] ∧
    unwrapEnvelope (.jobj [("payload", .jobj [("name", .jstr "A")])]) = .jobj [("name", .jstr "A")] ∧
    unwrapEnvelope (.jobj [("submission", .jstr "x"), ("other", .jstr "y")])
      = .jobj [("submission", .jstr "x"), ("other", .jstr "y")] := by
  have h := envelope_unwrapping
  refine ⟨?_, ?_, ?_⟩
  · exact h.2.1 [("data", .jobj [("name", .jstr "A")])] [("name", .jstr "A")] (by simp [getProp, isObjTypeO, List.lookup]) (by simp [getProp, List.lookup])
  · exact h.2.2.1 [("payload", .jobj [("name", .jstr "A")])] [("name", .jstr "A")] (by simp [getProp, isObjTypeO, List.lookup]) (by simp [getProp, isObjTypeO, List.lookup]) (by simp [getProp, List.lookup])
  · exact h.2.2.2.1 [("submission", .jstr "x"), ("other", .jstr "y")] (by simp [getProp, isObjTypeO, List.lookup]) (by simp [getProp, isObjTypeO, List.lookup]) (by simp [getProp, isObjTypeO, List.lookup])

/- ===================== Formatter helper lemmas ===================== -/

theorem semanticLine_eq_spec (fd : JVal) (label key : String) :
    semanticLine fd label key = specFieldLine fd label key := by
  unfold semanticLine specFieldLine
  cases h : getProp fd key with
  | none => simp [h, jsTruthyO]
  | some v => by_cases hv : jsTruthy v <;> simp [h, jsTruthyO, hv, jsToStringO]

theorem nameLines_eq_spec (fd : JVal) :
    nameLines fd = (match specNameValue fd with | some n => ["Name: " ++ n] | none => []) := by
  unfold nameLines specNameValue specComposedName
  cases hn : getProp fd "name" <;> cases hf : getProp fd "firstName" <;>
    cases hl : getProp fd "lastName" <;>
    simp only [hn, hf, hl, jsTruthyO, jsToStringO, List.any_cons, List.any_nil,
      Bool.or_false, Bool.false_or, Bool.or_self] <;>
    split_ifs <;> simp_all

theorem genericLines_eq_spec (fd : JVal) :
    genericLines fd = (jsKeys fd).filterMap (fun k =>
      if strStarts k '_' = true ∨ recognizedKeys.contains k = true then none
      else some (capFirst k ++ ": " ++ jsToStringO (getProp fd k))) := by
  unfold genericLines
  apply List.filterMap_congr
  intro k _
  by_cases h1 : strStarts k '_' = true
  · simp [h1]
  · by_cases h2 : recognizedKeys.contains k = true
    · simp [h1, h2]
    · simp [h1, h2]

/- ===================== Claim C8 ===================== -/

/-- Counterexample for C8: the formatter consults no aliases.  A
submission carrying only the service alias key field renders a generic
capitalized Field line and no Service line at all, although the claim
requires the semantic Service line to be emitted whenever any alias is
present. -/
theorem formatter_alias_cex :
    formatFormDataMessage (.jobj [("field", .jstr "Roof Repair")])
      = "📝 New Form Submission\nField: Roof Repair" ∧
    strIncludes (formatFormDataMessage (.jobj [("field", .jstr "Roof Repair")])) "Service:" = false := by
  exact ⟨rfl, rfl⟩

/-- C8 amended: the rendered message is the fixed header line, then one
line per recognized semantic field in the fixed order name, email,
phone, service, message, websiteUrl, each rendered as Label: value and
emitted only when its primary key itself holds a present non-empty
value (name may also be composed from firstName and lastName joined by
a single space); alias keys are not consulted and are instead rendered,
like every other key not starting with an underscore and not among the
recognized keys, as a generic capitalized line in iteration order. -/
theorem formatter_amended :
    (∀ fd, formatFormDataMessage fd = renderSpecC8 fd) ∧
    formatFormDataMessage (.jobj [("name", .jstr "A"), ("phone", .jstr "B"), ("message", .jstr "C")])
      = "📝 New Form Submission\nName: A\nPhone: B\nMessage: C" ∧
    formatFormDataMessage (.jobj [("message", .jstr "C"), ("phone", .jstr "B"), ("name", .jstr "A")])
      = "📝 New Form Submission\nName: A\nPhone: B\nMessage: C" ∧
    formatFormDataMessage (.jobj [("phone", .jstr "B"), ("message", .jstr "C"), ("name", .jstr "A")])
      = "📝 New Form Submission\nName: A\nPhone: B\nMessage: C" ∧
    formatFormDataMessage (.jobj [("comment", .jstr "C")]) = "📝 New Form Submission\nComment: C" ∧
    formatFormDataMessage (.jobj [("type", .jstr "T")]) = "📝 New Form Submission\nType: T" ∧
    formatFormDataMessage (.jobj [("firstName", .jstr "Jo"), ("lastName", .jstr "Ng")])
      = "📝 New Form Submission\nName: Jo Ng" := by
  refine ⟨?_, rfl, rfl, rfl, rfl, rfl, rfl⟩
  intro fd
  unfold formatFormDataMessage renderSpecC8
  simp only [nameLines_eq_spec, semanticLine_eq_spec, genericLines_eq_spec,
    specSemanticTable, specHeaderLine, List.foldr_cons, List.foldr_nil, List.append_nil,
    List.append_assoc]

/- ===================== Handler helper lemmas ===================== -/

theorem handler_post_valid (cfg : Config) (o : SlackOracle) (t : TwilioOracle)
    (table : Option String) (now : String) (hdrs : List (String × String))
    (qsp : Option (List (String × String))) (raw : JVal)
    (hsec : strTruthyO (hookSecretOf hdrs) = false)
    (hval : validSubmission raw = true) :
    handler cfg o t table now ⟨"POST", hdrs, qsp, some (.val raw)⟩ =
      ⟨200, stdHeaders, .json (successBody now
        (sendToSlack cfg o).toOption
        (chan1Run cfg t table (formatFormDataMessage (unwrapEnvelope raw)) (unwrapEnvelope raw)).toOption
        (chan1bRun cfg t (formatFormDataMessage (unwrapEnvelope raw))).toOption
        (chan2Run cfg t (unwrapEnvelope raw)).toOption)⟩ := by
  unfold validSubmission at hval
  simp only [Bool.and_eq_true, Bool.not_eq_true'] at hval
  obtain ⟨⟨hnull, htru⟩, hkeys⟩ := hval
  unfold handler handlePostData
  simp [hsec, hnull, htru, hkeys]

/- ===================== Claim C1 ===================== -/

/-- C1: on every valid non-empty submission the handler returns 200,
and the response is assembled from four per-channel outcomes, each the
result of that channel alone (a function only of its own delivery
oracle and inputs), so one channel throwing cannot affect the others;
a thrown delivery surfaces only as that channel's null (failed) flag. -/
theorem handler_isolates_channel_failures (cfg : Config) (o : SlackOracle) (t : TwilioOracle)
    (table : Option String) (now : String) (hdrs : List (String × String))
    (qsp : Option (List (String × String))) (raw : JVal)
    (hsec : strTruthyO (hookSecretOf hdrs) = false)
    (hval : validSubmission raw = true) :
    handler cfg o t table now ⟨"POST", hdrs, qsp, some (.val raw)⟩ =
      ⟨200, stdHeaders, .json (successBody now
        (sendToSlack cfg o).toOption
        (chan1Run cfg t table (formatFormDataMessage (unwrapEnvelope raw)) (unwrapEnvelope raw)).toOption
        (chan1bRun cfg t (formatFormDataMessage (unwrapEnvelope raw))).toOption
        (chan2Run cfg t (unwrapEnvelope raw)).toOption)⟩ ∧
    (∀ e, chan1Run cfg t table (formatFormDataMessage (unwrapEnvelope raw)) (unwrapEnvelope raw) = .error e →
      smsFlag (chan1Run cfg t table (formatFormDataMessage (unwrapEnvelope raw)) (unwrapEnvelope raw)).toOption = .jnull) ∧
    (∀ e, chan1bRun cfg t (formatFormDataMessage (unwrapEnvelope raw)) = .error e →
      smsFlag (chan1bRun cfg t (formatFormDataMessage (unwrapEnvelope raw))).toOption = .jnull) ∧
    (∀ e, chan2Run cfg t (unwrapEnvelope raw) = .error e →
      smsFlag (chan2Run cfg t (unwrapEnvelope raw)).toOption = .jnull) ∧
    (∀ e, sendToSlack cfg o = .error e →
      slackFlag (sendToSlack cfg o).toOption = .jnull) := by
  refine ⟨handler_post_valid cfg o t table now hdrs qsp raw hsec hval, ?_, ?_, ?_, ?_⟩
  · intro e h
    rw [h]
    rfl
  · intro e h
    rw [h]
    rfl
  · intro e h
    rw [h]
    rfl
  · intro e h
    rw [h]
    rfl

/-- Witness for C1: a concrete submission with every delivery throwing;
the response is still the 200 summary, and the throwing additional
number channel surfaces as a null flag. -/
theorem handler_isolates_channel_failures_witness :
    validSubmission (.jobj [("name", .jstr "A"), ("phone", .jstr "07792145328")]) = true ∧
    handler ⟨some "SID", some "TOK", some "+15005550006", none⟩ (.error "slack down")
        (fun _ _ _ => .error "boom") none "2026-01-01T00:00:00Z"
        ⟨"POST", [], none, some (.val (.jobj [("name", .jstr "A"), ("phone", .jstr "07792145328")]))⟩ =
      ⟨200, stdHeaders, .json (successBody "2026-01-01T00:00:00Z"
        (sendToSlack ⟨some "SID", some "TOK", some "+15005550006", none⟩ (.error "slack down")).toOption
        (chan1Run ⟨some "SID", some "TOK", some "+15005550006", none⟩ (fun _ _ _ => .error "boom") none
          (formatFormDataMessage (unwrapEnvelope (.jobj [("name", .jstr "A"), ("phone", .jstr "07792145328")])))
          (unwrapEnvelope (.jobj [("name", .jstr "A"), ("phone", .jstr "07792145328")]))).toOption
        (chan1bRun ⟨some "SID", some "TOK", some "+15005550006", none⟩ (fun _ _ _ => .error "boom")
          (formatFormDataMessage (unwrapEnvelope (.jobj [("name", .jstr "A"), ("phone", .jstr "07792145328")])))).toOption
        (chan2Run ⟨some "SID", some "TOK", some "+15005550006", none⟩ (fun _ _ _ => .error "boom")
          (unwrapEnvelope (.jobj [("name", .jstr "A"), ("phone", .jstr "07792145328")]))).toOption)⟩ ∧
    smsFlag (chan1bRun ⟨some "SID", some "TOK", some "+15005550006", none⟩ (fun _ _ _ => .error "boom")
      (formatFormDataMessage (unwrapEnvelope (.jobj [("name", .jstr "A"), ("phone", .jstr "07792145328")])))).toOption = .jnull := by
  have h := handler_isolates_channel_failures ⟨some "SID", some "TOK", some "+15005550006", none⟩
    (.error "slack down") (fun _ _ _ => .error "boom") none "2026-01-01T00:00:00Z" [] none
    (.jobj [("name", .jstr "A"), ("phone", .jstr "07792145328")]) rfl rfl
  exact ⟨rfl, h.1, h.2.2.1 "boom" rfl⟩

/- ===================== Flag characterization lemmas ===================== -/

theorem successBody_flag_lookup (now : String) (sR : Option SlackRes) (r1 r1b r2 : Option SmsRes) :
    getProp (successBody now sR r1 r1b r2) "slackSent" = some (slackFlag sR) ∧
    getProp (successBody now sR r1 r1b r2) "businessSmsSent" = some (smsFlag r1) ∧
    getProp (successBody now sR r1 r1b r2) "additionalSmsSent" = some (smsFlag r1b) ∧
    getProp (successBody now sR r1 r1b r2) "customerSmsSent" = some (smsFlag r2) := by
  exact ⟨rfl, rfl, rfl, rfl⟩

theorem smsFlag_toOption_true (E : Except String SmsRes) :
    smsFlag E.toOption = .jbool true ↔ ∃ sid, E = .ok (.sent sid) := by
  cases E with
  | error e => simp [Except.toOption, smsFlag]
  | ok r =>
      cases r with
      | skipped => simp [Except.toOption, smsFlag]
      | sent sid => simp [Except.toOption, smsFlag]

theorem smsFlag_toOption_error (E : Except String SmsRes) (e : String) (h : E = .error e) :
    smsFlag E.toOption = .jnull := by
  rw [h]
  rfl

theorem smsFlag_toOption_skipped (E : Except String SmsRes) (h : E = .ok .skipped) :
    smsFlag E.toOption = .jbool false := by
  rw [h]
  rfl

theorem slackFlag_toOption_skipped (E : Except String SlackRes) (h : E = .ok .skipped) :
    slackFlag E.toOption = .jbool false := by
  rw [h]
  rfl

theorem slackFlag_toOption_true (E : Except String SlackRes) :
    slackFlag E.toOption = .jbool true → ∃ j, E = .ok (.okJson j) ∧ jsTruthy j = true := by
  cases E with
  | error e => intro h; exact absurd h (by simp [Except.toOption, slackFlag])
  | ok r =>
      cases r with
      | skipped => intro h; exact absurd h (by simp [Except.toOption, slackFlag])
      | okJson j =>
          intro h
          by_cases hj : jsTruthy j = true
          · exact ⟨j, rfl, hj⟩
          · have hfl : slackFlag (Except.toOption (.ok (SlackRes.okJson j) : Except String SlackRes)) = j := by
              simp [Except.toOption, slackFlag, hj]
            rw [hfl] at h
            rw [h] at hj
            exact absurd rfl hj

/- ===================== Claim C2 ===================== -/

/-- Counterexample for C2: when a channel delivery throws, its flag in
the 200 body is JSON null, not a boolean; here the additional number
SMS throws and additionalSmsSent is null. -/
theorem response_flags_cex :
    getRespProp (handler ⟨some "SID", some "TOK", some "+15005550006", none⟩ (.error "down")
        (fun _ _ _ => .error "boom") none "T"
        ⟨"POST", [], none, some (.val (.jobj [("name", .jstr "A")]))⟩) "additionalSmsSent"
      = some JVal.jnull ∧
    JVal.jnull ≠ JVal.jbool true ∧ JVal.jnull ≠ JVal.jbool false := by
  refine ⟨rfl, ?_, ?_⟩ <;> intro h <;> exact JVal.noConfusion h

/-- C2 amended: on every valid non-empty submission the 200 body
carries all four flags; each SMS flag is true exactly when that channel
delivered (boolean false when skipped, null rather than a boolean when
the delivery threw), and slackSent is true only when the Slack call
succeeded with a truthy JSON result. -/
theorem response_flags_amended (cfg : Config) (o : SlackOracle) (t : TwilioOracle)
    (table : Option String) (now : String) (hdrs : List (String × String))
    (qsp : Option (List (String × String))) (raw : JVal)
    (hsec : strTruthyO (hookSecretOf hdrs) = false)
    (hval : validSubmission raw = true) :
    (handler cfg o t table now ⟨"POST", hdrs, qsp, some (.val raw)⟩).statusCode = 200 ∧
    ((getRespProp (handler cfg o t table now ⟨"POST", hdrs, qsp, some (.val raw)⟩) "slackSent").isSome ∧
     (getRespProp (handler cfg o t table now ⟨"POST", hdrs, qsp, some (.val raw)⟩) "businessSmsSent").isSome ∧
     (getRespProp (handler cfg o t table now ⟨"POST", hdrs, qsp, some (.val raw)⟩) "additionalSmsSent").isSome ∧
     (getRespProp (handler cfg o t table now ⟨"POST", hdrs, qsp, some (.val raw)⟩) "customerSmsSent").isSome) ∧
    (getRespProp (handler cfg o t table now ⟨"POST", hdrs, qsp, some (.val raw)⟩) "businessSmsSent"
        = some (.jbool true) ↔
      ∃ sid, chan1Run cfg t table (formatFormDataMessage (unwrapEnvelope raw)) (unwrapEnvelope raw)
        = .ok (.sent sid)) ∧
    (getRespProp (handler cfg o t table now ⟨"POST", hdrs, qsp, some (.val raw)⟩) "additionalSmsSent"
        = some (.jbool true) ↔
      ∃ sid, chan1bRun cfg t (formatFormDataMessage (unwrapEnvelope raw)) = .ok (.sent sid)) ∧
    (getRespProp (handler cfg o t table now ⟨"POST", hdrs, qsp, some (.val raw)⟩) "customerSmsSent"
        = some (.jbool true) ↔
      ∃ sid, chan2Run cfg t (unwrapEnvelope raw) = .ok (.sent sid)) ∧
    (getRespProp (handler cfg o t table now ⟨"POST", hdrs, qsp, some (.val raw)⟩) "slackSent"
        = some (.jbool true) →
      ∃ j, sendToSlack cfg o = .ok (.okJson j) ∧ jsTruthy j = true) ∧
    (∀ e, chan1Run cfg t table (formatFormDataMessage (unwrapEnvelope raw)) (unwrapEnvelope raw) = .error e →
      getRespProp (handler cfg o t table now ⟨"POST", hdrs, qsp, some (.val raw)⟩) "businessSmsSent"
        = some .jnull) ∧
    (∀ e, chan1bRun cfg t (formatFormDataMessage (unwrapEnvelope raw)) = .error e →
      getRespProp (handler cfg o t table now ⟨"POST", hdrs, qsp, some (.val raw)⟩) "additionalSmsSent"
        = some .jnull) ∧
    (∀ e, chan2Run cfg t (unwrapEnvelope raw) = .error e →
      getRespProp (handler cfg o t table now ⟨"POST", hdrs, qsp, some (.val raw)⟩) "customerSmsSent"
        = some .jnull) ∧
    (chan1Run cfg t table (formatFormDataMessage (unwrapEnvelope raw)) (unwrapEnvelope raw) = .ok .skipped →
      getRespProp (handler cfg o t table now ⟨"POST", hdrs, qsp, some (.val raw)⟩) "businessSmsSent"
        = some (.jbool false)) ∧
    (chan1bRun cfg t (formatFormDataMessage (unwrapEnvelope raw)) = .ok .skipped →
      getRespProp (handler cfg o t table now ⟨"POST", hdrs, qsp, some (.val raw)⟩) "additionalSmsSent"
        = some (.jbool false)) ∧
    (chan2Run cfg t (unwrapEnvelope raw) = .ok .skipped →
      getRespProp (handler cfg o t table now ⟨"POST", hdrs, qsp, some (.val raw)⟩) "customerSmsSent"
        = some (.jbool false)) ∧
    (sendToSlack cfg o = .ok .skipped →
      getRespProp (handler cfg o t table now ⟨"POST", hdrs, qsp, some (.val raw)⟩) "slackSent"
        = some (.jbool false)) := by
  rw [handler_post_valid cfg o t table now hdrs qsp raw hsec hval]
  have hb := successBody_flag_lookup now
    (sendToSlack cfg o).toOption
    (chan1Run cfg t table (formatFormDataMessage (unwrapEnvelope raw)) (unwrapEnvelope raw)).toOption
    (chan1bRun cfg t (formatFormDataMessage (unwrapEnvelope raw))).toOption
    (chan2Run cfg t (unwrapEnvelope raw)).toOption
  refine ⟨rfl, ⟨?_, ?_, ?_, ?_⟩, ?_, ?_, ?_, ?_, ?_, ?_, ?_, ?_, ?_, ?_, ?_⟩
  · simp [getRespProp, hb.1]
  · simp [getRespProp, hb.2.1]
  · simp [getRespProp, hb.2.2.1]
  · simp [getRespProp, hb.2.2.2]
  · rw [show getRespProp (⟨200, stdHeaders, .json (successBody now
        (sendToSlack cfg o).toOption
        (chan1Run cfg t table (formatFormDataMessage (unwrapEnvelope raw)) (unwrapEnvelope raw)).toOption
        (chan1bRun cfg t (formatFormDataMessage (unwrapEnvelope raw))).toOption
        (chan2Run cfg t (unwrapEnvelope raw)).toOption)⟩ : Response) "businessSmsSent"
      = some (smsFlag (chan1Run cfg t table (formatFormDataMessage (unwrapEnvelope raw)) (unwrapEnvelope raw)).toOption)
      from hb.2.1]
    rw [Option.some.injEq]
    exact smsFlag_toOption_true _
  · rw [show getRespProp (⟨200, stdHeaders, .json (successBody now
        (sendToSlack cfg o).toOption
        (chan1Run cfg t table (formatFormDataMessage (unwrapEnvelope raw)) (unwrapEnvelope raw)).toOption
        (chan1bRun cfg t (formatFormDataMessage (unwrapEnvelope raw))).toOption
        (chan2Run cfg t (unwrapEnvelope raw)).toOption)⟩ : Response) "additionalSmsSent"
      = some (smsFlag (chan1bRun cfg t (formatFormDataMessage (unwrapEnvelope raw))).toOption)
      from hb.2.2.1]
    rw [Option.some.injEq]
    exact smsFlag_toOption_true _
  · rw [show getRespProp (⟨200, stdHeaders, .json (successBody now
        (sendToSlack cfg o).toOption
        (chan1Run cfg t table (formatFormDataMessage (unwrapEnvelope raw)) (unwrapEnvelope raw)).toOption
        (chan1bRun cfg t (formatFormDataMessage (unwrapEnvelope raw))).toOption
        (chan2Run cfg t (unwrapEnvelope raw)).toOption)⟩ : Response) "customerSmsSent"
      = some (smsFlag (chan2Run cfg t (unwrapEnvelope raw)).toOption)
      from hb.2.2.2]
    rw [Option.some.injEq]
    exact smsFlag_toOption_true _
  · intro h
    rw [show getRespProp (⟨200, stdHeaders, .json (successBody now
        (sendToSlack cfg o).toOption
        (chan1Run cfg t table (formatFormDataMessage (unwrapEnvelope raw)) (unwrapEnvelope raw)).toOption
        (chan1bRun cfg t (formatFormDataMessage (unwrapEnvelope raw))).toOption
        (chan2Run cfg t (unwrapEnvelope raw)).toOption)⟩ : Response) "slackSent"
      = some (slackFlag (sendToSlack cfg o).toOption) from hb.1] at h
    rw [Option.some.injEq] at h
    exact slackFlag_toOption_true _ h
  · intro e h
    rw [show getRespProp (⟨200, stdHeaders, .json (successBody now
        (sendToSlack cfg o).toOption
        (chan1Run cfg t table (formatFormDataMessage (unwrapEnvelope raw)) (unwrapEnvelope raw)).toOption
        (chan1bRun cfg t (formatFormDataMessage (unwrapEnvelope raw))).toOption
        (chan2Run cfg t (unwrapEnvelope raw)).toOption)⟩ : Response) "businessSmsSent"
      = some (smsFlag (chan1Run cfg t table (formatFormDataMessage (unwrapEnvelope raw)) (unwrapEnvelope raw)).toOption)
      from hb.2.1]
    rw [smsFlag_toOption_error _ e h]
  · intro e h
    rw [show getRespProp (⟨200, stdHeaders, .json (successBody now
        (sendToSlack cfg o).toOption
        (chan1Run cfg t table (formatFormDataMessage (unwrapEnvelope raw)) (unwrapEnvelope raw)).toOption
        (chan1bRun cfg t (formatFormDataMessage (unwrapEnvelope raw))).toOption
        (chan2Run cfg t (unwrapEnvelope raw)).toOption)⟩ : Response) "additionalSmsSent"
      = some (smsFlag (chan1bRun cfg t (formatFormDataMessage (unwrapEnvelope raw))).toOption)
      from hb.2.2.1]
    rw [smsFlag_toOption_error _ e h]
  · intro e h
    rw [show getRespProp (⟨200, stdHeaders, .json (successBody now
        (sendToSlack cfg o).toOption
        (chan1Run cfg t table (formatFormDataMessage (unwrapEnvelope raw)) (unwrapEnvelope raw)).toOption
        (chan1bRun cfg t (formatFormDataMessage (unwrapEnvelope raw))).toOption
        (chan2Run cfg t (unwrapEnvelope raw)).toOption)⟩ : Response) "customerSmsSent"
      = some (smsFlag (chan2Run cfg t (unwrapEnvelope raw)).toOption)
      from hb.2.2.2]
    rw [smsFlag_toOption_error _ e h]
  · intro h
    rw [show getRespProp (⟨200, stdHeaders, .json (successBody now
        (sendToSlack cfg o).toOption
        (chan1Run cfg t table (formatFormDataMessage (unwrapEnvelope raw)) (unwrapEnvelope raw)).toOption
        (chan1bRun cfg t (formatFormDataMessage (unwrapEnvelope raw))).toOption
        (chan2Run cfg t (unwrapEnvelope raw)).toOption)⟩ : Response) "businessSmsSent"
      = some (smsFlag (chan1Run cfg t table (formatFormDataMessage (unwrapEnvelope raw)) (unwrapEnvelope raw)).toOption)
      from hb.2.1]
    rw [smsFlag_toOption_skipped _ h]
  · intro h
    rw [show getRespProp (⟨200, stdHeaders, .json (successBody now
        (sendToSlack cfg o).toOption
        (chan1Run cfg t table (formatFormDataMessage (unwrapEnvelope raw)) (unwrapEnvelope raw)).toOption
        (chan1bRun cfg t (formatFormDataMessage (unwrapEnvelope raw))).toOption
        (chan2Run cfg t (unwrapEnvelope raw)).toOption)⟩ : Response) "additionalSmsSent"
      = some (smsFlag (chan1bRun cfg t (formatFormDataMessage (unwrapEnvelope raw))).toOption)
      from hb.2.2.1]
    rw [smsFlag_toOption_skipped _ h]
  · intro h
    rw [show getRespProp (⟨200, stdHeaders, .json (successBody now
        (sendToSlack cfg o).toOption
        (chan1Run cfg t table (formatFormDataMessage (unwrapEnvelope raw)) (unwrapEnvelope raw)).toOption
        (chan1bRun cfg t (formatFormDataMessage (unwrapEnvelope raw))).toOption
        (chan2Run cfg t (unwrapEnvelope raw)).toOption)⟩ : Response) "customerSmsSent"
      = some (smsFlag (chan2Run cfg t (unwrapEnvelope raw)).toOption)
      from hb.2.2.2]
    rw [smsFlag_toOption_skipped _ h]
  · intro h
    rw [show getRespProp (⟨200, stdHeaders, .json (successBody now
        (sendToSlack cfg o).toOption
        (chan1Run cfg t table (formatFormDataMessage (unwrapEnvelope raw)) (unwrapEnvelope raw)).toOption
        (chan1bRun cfg t (formatFormDataMessage (unwrapEnvelope raw))).toOption
        (chan2Run cfg t (unwrapEnvelope raw)).toOption)⟩ : Response) "slackSent"
      = some (slackFlag (sendToSlack cfg o).toOption)
      from hb.1]
    rw [slackFlag_toOption_skipped _ h]

/-- Witness for C2 amended: the flag characterization applied to a
concrete submission with a successfully delivering SMS oracle. -/
theorem response_flags_amended_witness :
    validSubmission (.jobj [("name", .jstr "A")]) = true ∧
    (getRespProp (handler ⟨some "SID", some "TOK", some "+15005550006", none⟩ (.error "down")
        (fun _ _ _ => .ok "SM1") none "T"
        ⟨"POST", [], none, some (.val (.jobj [("name", .jstr "A")]))⟩) "additionalSmsSent"
        = some (.jbool true) ↔
      ∃ sid, chan1bRun ⟨some "SID", some "TOK", some "+15005550006", none⟩ (fun _ _ _ => .ok "SM1")
        (formatFormDataMessage (unwrapEnvelope (.jobj [("name", .jstr "A")]))) = .ok (.sent sid)) ∧
    getRespProp (handler ⟨some "SID", some "TOK", some "+15005550006", none⟩ (.error "down")
        (fun _ _ _ => .ok "SM1") none "T"
        ⟨"POST", [], none, some (.val (.jobj [("name", .jstr "A")]))⟩) "businessSmsSent"
      = some (.jbool false) := by
  have h := response_flags_amended ⟨some "SID", some "TOK", some "+15005550006", none⟩ (.error "down")
    (fun _ _ _ => .ok "SM1") none "T" [] none (.jobj [("name", .jstr "A")]) rfl rfl
  exact ⟨rfl, h.2.2.2.1, h.2.2.2.2.2.2.2.2.2.1 rfl⟩

/- ===================== Claim C9 ===================== -/

/-- C9: for GET and POST alike, a non-empty secret-echo header (either
casing, lowercase preferred) short-circuits to a 200 with empty body
echoing the exact header value, regardless of the request body; absent
that header, a GET with a non-empty challenge query parameter receives
200 with a JSON body carrying the challenge and a message containing
"verified". -/
theorem handshake_contract (cfg : Config) (o : SlackOracle) (t : TwilioOracle)
    (table : Option String) (now : String) :
    (∀ m hdrs qsp body s, (m = "GET" ∨ m = "POST") → hookSecretOf hdrs = some s → s ≠ "" →
      handler cfg o t table now ⟨m, hdrs, qsp, body⟩ = ⟨200, echoHeaders s, .empty⟩ ∧
      ("X-Hook-Secret", s) ∈ echoHeaders s) ∧
    (∀ hdrs qsp body c, strTruthyO (hookSecretOf hdrs) = false →
      Option.bind qsp (fun q => List.lookup "challenge" q) = some c → c ≠ "" →
      handler cfg o t table now ⟨"GET", hdrs, qsp, body⟩ =
        ⟨200, stdHeaders, .json (.jobj [("challenge", .jstr c),
                                        ("message", .jstr "REST Hook endpoint verified")])⟩ ∧
      ∃ pre post, "REST Hook endpoint verified" = pre ++ "verified" ++ post) := by
  constructor
  · intro m hdrs qsp body s hm hsec hs
    have hs2 : strTruthyO (some s) = true := by
      simpa [strTruthyO] using hs
    refine ⟨?_, by simp [echoHeaders]⟩
    cases hm with
    | inl h => subst h; unfold handler; simp [hsec, hs2]
    | inr h => subst h; unfold handler; simp [hsec, hs2]
  · intro hdrs qsp body c hsec hch hc
    have hc2 : strTruthyO (some c) = true := by
      simpa [strTruthyO] using hc
    refine ⟨?_, ⟨"REST Hook endpoint ", "", rfl⟩⟩
    unfold handler
    simp [hsec, hch, hc2]

/-- Witness for C9: a POST carrying the secret header and a malformed
body is still echoed with 200 and empty body, and a GET with a
challenge parameter gets the verification body. -/
theorem handshake_contract_witness :
    (hookSecretOf [("x-hook-secret", "sec123")] = some "sec123" ∧ "sec123" ≠ "" ∧
      handler ⟨none, none, none, none⟩ (.error "x") (fun _ _ _ => .error "x") none "T"
        ⟨"POST", [("x-hook-secret", "sec123")], none, some (.malformed "oops")⟩
        = ⟨200, echoHeaders "sec123", .empty⟩) ∧
    handler ⟨none, none, none, none⟩ (.error "x") (fun _ _ _ => .error "x") none "T"
        ⟨"GET", [], some [("challenge", "abc")], none⟩
      = ⟨200, stdHeaders, .json (.jobj [("challenge", .jstr "abc"),
                                        ("message", .jstr "REST Hook endpoint verified")])⟩ := by
  have h := handshake_contract ⟨none, none, none, none⟩ (.error "x") (fun _ _ _ => .error "x") none "T"
  refine ⟨⟨rfl, by decide, ?_⟩, ?_⟩
  · exact (h.1 "POST" [("x-hook-secret", "sec123")] none (some (.malformed "oops")) "sec123"
      (Or.inr rfl) rfl (by decide)).1
  · exact (h.2 [] (some [("challenge", "abc")]) none "abc" rfl rfl (by decide)).1

/- ===================== Claim C10 ===================== -/

/-- C10: a POST with malformed JSON yields 400 with error and details;
a POST with an absent body, or whose object is empty after envelope
unwrapping, yields 400 with error; in every such case the response is
identical for every configuration, table and delivery oracle, so no
notification channel is invoked. -/
theorem invalid_body_contract (cfg cfg2 : Config) (o o2 : SlackOracle) (t t2 : TwilioOracle)
    (table table2 : Option String) (now : String) :
    (∀ hdrs qsp m, strTruthyO (hookSecretOf hdrs) = false →
      handler cfg o t table now ⟨"POST", hdrs, qsp, some (.malformed m)⟩ =
        ⟨400, stdHeaders, .json (.jobj [("error", .jstr "Invalid JSON in request body"),
                                        ("details", .jstr m)])⟩) ∧
    (∀ hdrs qsp, strTruthyO (hookSecretOf hdrs) = false →
      handler cfg o t table now ⟨"POST", hdrs, qsp, none⟩ =
        ⟨400, stdHeaders, .json (.jobj [("error", .jstr "No form data received")])⟩) ∧
    (∀ hdrs qsp l, strTruthyO (hookSecretOf hdrs) = false →
      (jsKeys (unwrapEnvelope (.jobj l))).isEmpty = true →
      handler cfg o t table now ⟨"POST", hdrs, qsp, some (.val (.jobj l))⟩ =
        ⟨400, stdHeaders, .json (.jobj [("error", .jstr "No form data received")])⟩) ∧
    (∀ hdrs qsp m, strTruthyO (hookSecretOf hdrs) = false →
      handler cfg o t table now ⟨"POST", hdrs, qsp, some (.malformed m)⟩ =
        handler cfg2 o2 t2 table2 now ⟨"POST", hdrs, qsp, some (.malformed m)⟩) ∧
    (∀ hdrs qsp, strTruthyO (hookSecretOf hdrs) = false →
      handler cfg o t table now ⟨"POST", hdrs, qsp, none⟩ =
        handler cfg2 o2 t2 table2 now ⟨"POST", hdrs, qsp, none⟩) ∧
    (∀ hdrs qsp l, strTruthyO (hookSecretOf hdrs) = false →
      (jsKeys (unwrapEnvelope (.jobj l))).isEmpty = true →
      handler cfg o t table now ⟨"POST", hdrs, qsp, some (.val (.jobj l))⟩ =
        handler cfg2 o2 t2 table2 now ⟨"POST", hdrs, qsp, some (.val (.jobj l))⟩) := by
  have hmal : ∀ (c : Config) (oo : SlackOracle) (tt : TwilioOracle) (tb : Option String)
      hdrs qsp m, strTruthyO (hookSecretOf hdrs) = false →
      handler c oo tt tb now ⟨"POST", hdrs, qsp, some (.malformed m)⟩ =
        ⟨400, stdHeaders, .json (.jobj [("error", .jstr "Invalid JSON in request body"),
                                        ("details", .jstr m)])⟩ := by
    intro c oo tt tb hdrs qsp m hsec
    unfold handler handlePostData
    simp [hsec]
  have hempty : ∀ (c : Config) (oo : SlackOracle) (tt : TwilioOracle) (tb : Option String)
      hdrs qsp, strTruthyO (hookSecretOf hdrs) = false →
      handler c oo tt tb now ⟨"POST", hdrs, qsp, none⟩ =
        ⟨400, stdHeaders, .json (.jobj [("error", .jstr "No form data received")])⟩ := by
    intro c oo tt tb hdrs qsp hsec
    unfold handler handlePostData
    simp [hsec]
    rfl
  have hkeys : ∀ (c : Config) (oo : SlackOracle) (tt : TwilioOracle) (tb : Option String)
      hdrs qsp l, strTruthyO (hookSecretOf hdrs) = false →
      (jsKeys (unwrapEnvelope (.jobj l))).isEmpty = true →
      handler c oo tt tb now ⟨"POST", hdrs, qsp, some (.val (.jobj l))⟩ =
        ⟨400, stdHeaders, .json (.jobj [("error", .jstr "No form data received")])⟩ := by
    intro c oo tt tb hdrs qsp l hsec hk
    unfold handler handlePostData
    simp [hsec, hk, isJNull]
  refine ⟨hmal cfg o t table, hempty cfg o t table, hkeys cfg o t table, ?_, ?_, ?_⟩
  · intro hdrs qsp m hsec
    rw [hmal cfg o t table hdrs qsp m hsec, hmal cfg2 o2 t2 table2 hdrs qsp m hsec]
  · intro hdrs qsp hsec
    rw [hempty cfg o t table hdrs qsp hsec, hempty cfg2 o2 t2 table2 hdrs qsp hsec]
  · intro hdrs qsp l hsec hk
    rw [hkeys cfg o t table hdrs qsp l hsec hk, hkeys cfg2 o2 t2 table2 hdrs qsp l hsec hk]

/-- Witness for C10: the three 400 cases at concrete requests. -/
theorem invalid_body_contract_witness :
    handler ⟨none, none, none, none⟩ (.error "x") (fun _ _ _ => .error "x") none "T"
        ⟨"POST", [], none, some (.malformed "Unexpected token")⟩ =
      ⟨400, stdHeaders, .json (.jobj [("error", .jstr "Invalid JSON in request body"),
                                      ("details", .jstr "Unexpected token")])⟩ ∧
    handler ⟨none, none, none, none⟩ (.error "x") (fun _ _ _ => .error "x") none "T"
        ⟨"POST", [], none, none⟩ =
      ⟨400, stdHeaders, .json (.jobj [("error", .jstr "No form data received")])⟩ ∧
    handler ⟨none, none, none, none⟩ (.error "x") (fun _ _ _ => .error "x") none "T"
        ⟨"POST", [], none, some (.val (.jobj [("submission", .jobj [])]))⟩ =
      ⟨400, stdHeaders, .json (.jobj [("error", .jstr "No form data received")])⟩ := by
  have h := invalid_body_contract ⟨none, none, none, none⟩ ⟨some "SID", some "TOK", some "+1", none⟩
    (.error "x") (.ok (.jobj [])) (fun _ _ _ => .error "x") (fun _ _ _ => .ok "SM")
    none (some "header\nhttps://x.com,+441,+442") "T"
  refine ⟨h.1 [] none "Unexpected token" rfl, h.2.1 [] none rfl, ?_⟩
  exact h.2.2.1 [] none [("submission", .jobj [])] rfl rfl

/- ===================== Claim C3 ===================== -/

theorem twilioFrom_normalize (x : Option String) (h : x ≠ some "") :
    (if strTruthyO x then x else none) = x := by
  cases x with
  | none => rfl
  | some tw =>
      have : tw ≠ "" := fun he => h (he ▸ rfl)
      simp [strTruthyO, this]

/-- C3: the mapped-destination channel resolves the origin by checking
websiteUrl, then website, then siteUrl; with no (truthy) origin it is
skipped; with an origin but no table entry it is skipped; with an entry
it delivers the rendered message to the entry's destination number,
canonicalized through the phone normalizer only when it lacks a leading
+, and the actual network send uses the entry's sender override when
present, else the configured default sender. -/
theorem mapped_sms_resolution (cfg : Config) (t : TwilioOracle) (table : Option String)
    (msg : String) (fd : JVal) :
    (jsTruthyO (getProp fd "websiteUrl") = true → originValue fd = getProp fd "websiteUrl") ∧
    (jsTruthyO (getProp fd "websiteUrl") = false → jsTruthyO (getProp fd "website") = true →
      originValue fd = getProp fd "website") ∧
    (jsTruthyO (getProp fd "websiteUrl") = false → jsTruthyO (getProp fd "website") = false →
      originValue fd = getProp fd "siteUrl") ∧
    (jsTruthyO (originValue fd) = false → chan1Run cfg t table msg fd = .ok .skipped) ∧
    (∀ v, originValue fd = some v → jsTruthy v = true →
      getPhoneForWebsite table (jsToString v) = none →
      chan1Run cfg t table msg fd = .ok .skipped) ∧
    (∀ v e, originValue fd = some v → jsTruthy v = true →
      getPhoneForWebsite table (jsToString v) = some e →
      chan1Run cfg t table msg fd =
        sendTwilioSMS cfg t msg
          (if strStarts e.clientNumber '+' then some e.clientNumber
           else formatPhoneNumber (some e.clientNumber))
          e.twilioNumber) ∧
    (∀ v e toP fr, originValue fd = some v → jsTruthy v = true →
      getPhoneForWebsite table (jsToString v) = some e →
      strTruthyO cfg.accountSid = true → strTruthyO cfg.authToken = true →
      toP = (if strStarts e.clientNumber '+' then some e.clientNumber
             else formatPhoneNumber (some e.clientNumber)) →
      fr = strOrO e.twilioNumber cfg.twilioFrom →
      strTruthyO fr = true → strTruthyO toP = true → strStarts (toP.getD "") '+' = true →
      chan1Run cfg t table msg fd = (t (fr.getD "") (toP.getD "") msg).map SmsRes.sent) := by
  have hco : ∀ v e, originValue fd = some v → jsTruthy v = true →
      getPhoneForWebsite table (jsToString v) = some e →
      chan1Run cfg t table msg fd =
        sendTwilioSMS cfg t msg
          (if strStarts e.clientNumber '+' then some e.clientNumber
           else formatPhoneNumber (some e.clientNumber))
          e.twilioNumber := by
    intro v e hv hjv hl
    have hinv := getPhone_entry_inv table (jsToString v) e hl
    have hcl : (e.clientNumber == "") = false := by
      simpa using hinv.2.1
    unfold chan1Run
    rw [hv]
    simp only [jsTruthyO, hjv, if_true, jsToStringO, hl, hcl, Bool.not_false, if_true]
    rw [twilioFrom_normalize e.twilioNumber hinv.2.2]
  refine ⟨?_, ?_, ?_, ?_, ?_, hco, ?_⟩
  · intro h
    unfold originValue jsOrJ
    simp [h]
  · intro h1 h2
    unfold originValue jsOrJ
    simp [h1, h2]
  · intro h1 h2
    unfold originValue jsOrJ
    simp [h1, h2]
  · intro h
    unfold chan1Run
    simp [h]
  · intro v hv hjv hl
    unfold chan1Run
    rw [hv]
    simp only [jsTruthyO, hjv, if_true, jsToStringO, hl]
  · intro v e toP fr hv hjv hl hsid htok htoP hfr hfrT htoT hplus
    rw [hco v e hv hjv hl]
    unfold sendTwilioSMS
    rw [← hfr, ← htoP]
    simp only [hsid, htok, hfrT, htoT, hplus, Bool.not_true, Bool.false_or, Bool.or_false,
      Bool.or_self, if_false, Bool.not_false]
    simp [hfrT, htoT]

/-- Witness for C3: a submission whose websiteUrl is mapped by the
concrete table of the claim; the channel performs the network send from
the override sender +442 to the table destination +441. -/
theorem mapped_sms_resolution_witness :
    originValue (.jobj [("websiteUrl", .jstr "https://x.com")]) = some (.jstr "https://x.com") ∧
    getPhoneForWebsite (some "header\nhttps://x.com,+441,+442") (jsToString (.jstr "https://x.com"))
      = some ⟨"+441", some "+442"⟩ ∧
    chan1Run ⟨some "SID", some "TOK", some "+15005550006", none⟩ (fun fr toP _ => .ok (fr ++ toP))
        (some "header\nhttps://x.com,+441,+442") "M" (.jobj [("websiteUrl", .jstr "https://x.com")])
      = ((fun (fr toP : String) (_ : String) => (.ok (fr ++ toP) : Except String String)) "+442" "+441" "M").map SmsRes.sent := by
  refine ⟨rfl, rfl, ?_⟩
  exact (mapped_sms_resolution ⟨some "SID", some "TOK", some "+15005550006", none⟩
    (fun fr toP _ => .ok (fr ++ toP)) (some "header\nhttps://x.com,+441,+442") "M"
    (.jobj [("websiteUrl", .jstr "https://x.com")])).2.2.2.2.2.2
    (.jstr "https://x.com") ⟨"+441", some "+442"⟩ (some "+441") (some "+442")
    rfl rfl rfl rfl rfl rfl rfl rfl rfl rfl
